import Mathlib

/-!
Verification of the AADHAAR_OCR extraction pipeline (`app/ocr_processor.py`).

The Python source is shallowly embedded: strings are `String`/`List Char`,
each regular-expression search of the source is hand-translated into an
executable matching function with the same leftmost/greedy/lazy semantics,
and the PDF library (`fitz`) is abstracted by a small record describing the
observable behaviour of an opened document.  Python's Unicode-aware character
classes (`\d`, `\s`, `\w`, `str.isdigit`, case-insensitive matching) are
modelled on the character ranges that occur in this domain: ASCII plus the
Tamil block (and the Arabic-Indic and Devanagari decimal-digit ranges for
the digit property), as documented on each definition.
-/

namespace AadhaarOCR

/-- Python whitespace (`\s`, `str.strip`, `str.split()`), ASCII part:
space, tab, newline, carriage return, vertical tab, form feed. -/
def pyWs (c : Char) : Bool :=
  c == ' ' || c == '\t' || c == '\n' || c == '\r' || c.toNat == 11 || c.toNat == 12

/-- Python's decimal-digit property, as used by `str.isdigit` and the regex
class `\d`.  Python accepts every Unicode decimal digit; we model the ranges
relevant to this document domain: ASCII `0-9`, Arabic-Indic U+0660-0669,
Devanagari U+0966-096F and Tamil U+0BE6-0BEF. -/
def pyDigit (c : Char) : Bool :=
  (48 ≤ c.toNat && c.toNat ≤ 57)
  || (0x660 ≤ c.toNat && c.toNat ≤ 0x669)
  || (0x966 ≤ c.toNat && c.toNat ≤ 0x96F)
  || (0xBE6 ≤ c.toNat && c.toNat ≤ 0xBEF)

/-- ASCII letter. -/
def asciiAlpha (c : Char) : Bool :=
  (65 ≤ c.toNat && c.toNat ≤ 90) || (97 ≤ c.toNat && c.toNat ≤ 122)

/-- Regex word character (`\w`), for `\b` word boundaries: letters, digits and
underscore.  Letters are modelled as ASCII letters plus the Tamil block. -/
def pyWord (c : Char) : Bool :=
  asciiAlpha c || pyDigit c || c == '_' || (0xB80 ≤ c.toNat && c.toNat ≤ 0xBFF)

/-- ASCII lower-casing of one character (model of Python `str.lower` on the
ASCII range used here). -/
def lowerChar (c : Char) : Char :=
  if 65 ≤ c.toNat && c.toNat ≤ 90 then Char.ofNat (c.toNat + 32) else c

/-- ASCII upper-casing of one character. -/
def upperChar (c : Char) : Char :=
  if 97 ≤ c.toNat && c.toNat ≤ 122 then Char.ofNat (c.toNat - 32) else c

/-- Python `str.capitalize`: first character upper-cased, the rest
lower-cased. -/
def pyCapitalize (l : List Char) : List Char :=
  match l with
  | [] => []
  | c :: rest => upperChar c :: rest.map lowerChar

/-- Python `str.strip()`: drop leading and trailing whitespace. -/
def pyStrip (l : List Char) : List Char :=
  ((l.dropWhile pyWs).reverse.dropWhile pyWs).reverse

/-- `pfxOf p l` is true when `p` is a prefix of `l` (used for Python
`str.startswith`). -/
def pfxOf : List Char → List Char → Bool
  | [], _ => true
  | _ :: _, [] => false
  | a :: as, b :: bs => a == b && pfxOf as bs

/-- Substring test (Python `needle in hay`). -/
def containsSub (needle hay : List Char) : Bool :=
  match hay with
  | [] => needle.isEmpty
  | _ :: rest => pfxOf needle hay || containsSub needle rest

/-- One character of a case-insensitive literal: the text character must be
one of the two case variants (model of `re.IGNORECASE` over ASCII). -/
def ci2 (c lo up : Char) : Bool := c == lo || c == up

/-- Match a case-insensitive literal given as a list of (lower, upper)
pairs; returns the rest of the text on success. -/
def litCI : List (Char × Char) → List Char → Option (List Char)
  | [], rest => some rest
  | _ :: _, [] => none
  | (lo, up) :: ps, c :: rest => if ci2 c lo up then litCI ps rest else none

/-- Match a case-insensitive literal, also returning the text characters
actually consumed (the regex capture keeps the original casing). -/
def litCIcap : List (Char × Char) → List Char → Option (List Char × List Char)
  | [], rest => some ([], rest)
  | _ :: _, [] => none
  | (lo, up) :: ps, c :: rest =>
    if ci2 c lo up then (litCIcap ps rest).map (fun gr => (c :: gr.1, gr.2)) else none

/-- Word boundary after a match: end of text, or a non-word character next. -/
def bAfter : List Char → Bool
  | [] => true
  | c :: _ => !pyWord c

/-- Leftmost search of a pattern (no word-boundary requirement): try the
matcher at every position, earliest first. -/
def search {α : Type} (att : List Char → Option α) : List Char → Option α
  | [] => none
  | c :: rest =>
    match att (c :: rest) with
    | some g => some g
    | none => search att rest

/-- Leftmost search of a pattern that requires a word boundary before its
first character; the boolean tracks whether a boundary holds at the current
position (start of text, or previous character not a word character). -/
def searchB {α : Type} (att : List Char → Option α) : Bool → List Char → Option α
  | _, [] => none
  | bnd, c :: rest =>
    match (if bnd then att (c :: rest) else none) with
    | some g => some g
    | none => searchB att (!pyWord c) rest

/-- `validate_aadhaar` (ocr_processor.py lines 240-248): remove all spaces,
then require a nonempty, all-digit, 12-character string.  `str.isdigit` is
Python's Unicode decimal-digit test, modelled by `pyDigit`. -/
def validate_aadhaar (s : String) : Bool :=
  let a := s.data.filter (fun c => c != ' ')
  (!a.isEmpty) && a.all pyDigit && a.length == 12

/-- Follows the spec's words for the ID validator (spec section 4.4 and the
claim): after removing spaces the string must be nonempty, consist only of
ASCII digits, and be exactly 12 characters long. -/
def specValidAsciiId (s : String) : Bool :=
  let a := s.data.filter (fun c => c != ' ')
  (!a.isEmpty) && a.all (fun c => 48 ≤ c.toNat && c.toNat ≤ 57) && a.length == 12

/-! ## Text acquisition layer (`extract_text_from_pdf`, lines 83-136)

The PDF library `fitz` is abstracted: an opened document `PDFDoc` exposes its
encryption flag (`needs_pass`), its authentication behaviour (`authOk`) and
its pages.  Each page exposes the result of `page.get_text("text")` (which
can raise, hence `Except`) together with `ocrText`, the text that the OCR
fallback (`extract_text_from_image` after `preprocess_image`) would produce
for that page if it were invoked.  The input `PDFBytes` records whether the
byte string is nonempty and the outcome of `fitz.open` on it.  Errors are
the exception message strings of the source. -/

/-- One PDF page as observed by the code: the native text layer extraction
result, and the text the OCR fallback would yield on the rasterized page. -/
structure PDFPage where
  getText : Except String String
  ocrText : String

/-- An opened PDF document, abstracting the `fitz` document object. -/
structure PDFDoc where
  needs_pass : Bool
  authOk : String → Bool
  pages : List PDFPage

/-- The raw input: whether `pdf_bytes` is nonempty, and what `fitz.open`
yields on it (a document, or a parse-error message). -/
structure PDFBytes where
  nonempty : Bool
  parsed : Except String PDFDoc

/-- Python truthiness of the optional `password` parameter
(`None` and `""` are falsy). -/
def pyTruthy : Option String → Bool
  | none => false
  | some s => !(s == "")

/-- The "PDF is not encrypted, password not required" message (line 107). -/
def pnnMsg : String := "PDF is not encrypted, password not required"

/-- Lines 101-105: `try: if not doc.authenticate(password): raise ...`
with the inner `except` re-wrapping the message as
`PDF decryption failed: ...`. -/
def authTry (doc : PDFDoc) (p : String) : Except String Unit :=
  match (if doc.authOk p then Except.ok () else
          Except.error "Invalid password provided for PDF" : Except String Unit) with
  | Except.ok _ => Except.ok ()
  | Except.error m => Except.error ("PDF decryption failed: " ++ m)

/-- Lines 106-110: the `elif password:` branch, including the unreachable
re-authentication check that the source places after the `raise`
(sequenced here after the error, exactly as in the source). -/
def notEncBranch (doc : PDFDoc) (p : String) : Except String Unit :=
  Except.bind (Except.error pnnMsg : Except String Unit)
    (fun _ => if !(doc.authOk p) then Except.error "Invalid password provided for PDF"
              else Except.ok ())

/-- Lines 97-110: the password/encryption checks. -/
def passCheck (doc : PDFDoc) (password : Option String) : Except String Unit :=
  if doc.needs_pass then
    if !(pyTruthy password) then Except.error "Password required for encrypted PDF"
    else authTry doc (password.getD "")
  else
    if pyTruthy password then notEncBranch doc (password.getD "")
    else Except.ok ()

/-- Lines 112-118: `for page in doc: text += page.get_text("text")`, where a
raising page aborts with the page-indexed message (`page.number` is 0-based,
the message uses `page.number + 1`). -/
def pagesLoop : Nat → String → List PDFPage → Except String String
  | _, acc, [] => Except.ok acc
  | i, acc, pg :: rest =>
    match pg.getText with
    | Except.ok t => pagesLoop (i + 1) (acc ++ t) rest
    | Except.error m =>
      Except.error ("Error extracting text from page " ++ toString (i + 1) ++ ": " ++ m)

/-- Lines 97-124: the body of the `try` block after a successful
`fitz.open`. -/
def extractBody (doc : PDFDoc) (password : Option String) : Except String String :=
  match passCheck doc password with
  | Except.error m => Except.error m
  | Except.ok _ =>
    match pagesLoop 0 "" doc.pages with
    | Except.error m => Except.error m
    | Except.ok text =>
      if (pyStrip text.data).isEmpty then
        Except.error "No text could be extracted from the PDF"
      else Except.ok text

/-- Line 127: the messages the outer handler re-raises unchanged
(`str(e).startswith(("Password required", "Invalid password",
"No text could be"))`). -/
def keepMsg (m : String) : Bool :=
  pfxOf "Password required".data m.data
  || pfxOf "Invalid password".data m.data
  || pfxOf "No text could be".data m.data

/-- `extract_text_from_pdf` (lines 83-136): the empty-input check happens
before the `try`, so it is never re-wrapped; every other failure message is
re-wrapped as `Failed to process PDF: ...` unless `keepMsg` accepts it.
The `finally: doc.close()` has no effect on the returned value and is
not modelled. -/
def extract_text_from_pdf (input : PDFBytes) (password : Option String) :
    Except String String :=
  if !input.nonempty then Except.error "Empty PDF stream provided"
  else
    match (match input.parsed with
           | Except.error m => Except.error ("Invalid PDF format: " ++ m)
           | Except.ok doc => extractBody doc password) with
    | Except.ok t => Except.ok t
    | Except.error m =>
      if keepMsg m then Except.error m
      else Except.error ("Failed to process PDF: " ++ m)

/-- The `elif password:` branch with the dead code after the `raise`
removed (what the spec says the branch amounts to). -/
def notEncBranchNoDead : Except String Unit := Except.error pnnMsg

/-- `passCheck` with the dead re-authentication check removed. -/
def passCheckNoDead (doc : PDFDoc) (password : Option String) : Except String Unit :=
  if doc.needs_pass then
    if !(pyTruthy password) then Except.error "Password required for encrypted PDF"
    else authTry doc (password.getD "")
  else
    if pyTruthy password then notEncBranchNoDead
    else Except.ok ()

/-- `extractBody` with the dead code removed. -/
def extractBodyNoDead (doc : PDFDoc) (password : Option String) : Except String String :=
  match passCheckNoDead doc password with
  | Except.error m => Except.error m
  | Except.ok _ =>
    match pagesLoop 0 "" doc.pages with
    | Except.error m => Except.error m
    | Except.ok text =>
      if (pyStrip text.data).isEmpty then
        Except.error "No text could be extracted from the PDF"
      else Except.ok text

/-- `extract_text_from_pdf` with the dead code removed. -/
def extract_text_from_pdf_noDead (input : PDFBytes) (password : Option String) :
    Except String String :=
  if !input.nonempty then Except.error "Empty PDF stream provided"
  else
    match (match input.parsed with
           | Except.error m => Except.error ("Invalid PDF format: " ++ m)
           | Except.ok doc => extractBodyNoDead doc password) with
    | Except.ok t => Except.ok t
    | Except.error m =>
      if keepMsg m then Except.error m
      else Except.error ("Failed to process PDF: " ++ m)

/-- Replace every page's would-be OCR output (a quantity the code never
reads) according to `f`, leaving everything else unchanged. -/
def setOcr (f : String → String) (input : PDFBytes) : PDFBytes :=
  { input with
    parsed :=
      match input.parsed with
      | Except.error m => Except.error m
      | Except.ok d =>
        Except.ok { d with pages := d.pages.map (fun pg => { pg with ocrText := f pg.ocrText }) } }

/-! ## Field parser (`parse_aadhaar_details`, lines 159-238, and
`extract_name_from_text`, lines 138-157)

Each `re.search`/`re.split`/`re.sub` of the source is translated into an
executable matcher with the same leftmost-match, greedy/lazy and
backtracking behaviour; each matcher's doc comment names the pattern it
embeds. -/

/-- Take exactly `n` decimal digits; return them and the rest. -/
def takeDigits : Nat → List Char → Option (List Char × List Char)
  | 0, l => some ([], l)
  | _ + 1, [] => none
  | n + 1, c :: rest =>
    if pyDigit c then (takeDigits n rest).map (fun gr => (c :: gr.1, gr.2)) else none

/-- Pattern `\d{4}\s\d{4}\s\d{4}` followed by a word boundary, tried at the
current position (the `\b` before the first digit is handled by the caller).
Returns the 14 captured characters. -/
def aadhaarAt (l : List Char) : Option (List Char) :=
  match takeDigits 4 l with
  | none => none
  | some (g1, r1) =>
    match r1 with
    | s1 :: r2 =>
      if pyWs s1 then
        match takeDigits 4 r2 with
        | none => none
        | some (g2, r3) =>
          match r3 with
          | s2 :: r4 =>
            if pyWs s2 then
              match takeDigits 4 r4 with
              | none => none
              | some (g3, r5) =>
                if bAfter r5 then some (g1 ++ s1 :: g2 ++ s2 :: g3) else none
            else none
          | [] => none
      else none
    | [] => none

/-- Line 165: `re.search(r'\b(\d{4}\s\d{4}\s\d{4})\b', text)`. -/
def aadhaarSearch (l : List Char) : Option (List Char) := searchB aadhaarAt true l

/-- Pattern `\s\d{4}` repeated, for the VID tail. -/
def wsDigits4 : List Char → Option (List Char × List Char)
  | s :: r =>
    if pyWs s then (takeDigits 4 r).map (fun gr => (s :: gr.1, gr.2)) else none
  | [] => none

/-- Pattern `VID[:\s]*(\d{4}\s\d{4}\s\d{4}\s\d{4})` (line 176, case
sensitive) tried at the current position; `[:\s]*` is greedy and its class
is disjoint from `\d`, so it consumes the maximal run.  Returns the 19
captured digit-group characters. -/
def vidAt (l : List Char) : Option (List Char) :=
  match l with
  | 'V' :: 'I' :: 'D' :: rest =>
    let r := rest.dropWhile (fun c => c == ':' || pyWs c)
    match takeDigits 4 r with
    | none => none
    | some (g1, r1) =>
      match wsDigits4 r1 with
      | none => none
      | some (g2, r2) =>
        match wsDigits4 r2 with
        | none => none
        | some (g3, r3) =>
          match wsDigits4 r3 with
          | none => none
          | some (g4, _) => some (g1 ++ g2 ++ g3 ++ g4)
  | _ => none

/-- Line 176: `re.search(r'VID[:\s]*(\d{4}\s\d{4}\s\d{4}\s\d{4})', text)`. -/
def vidSearch (l : List Char) : Option (List Char) := search vidAt l

/-- Character class `[஀-௿\s]` (Tamil block or whitespace). -/
def tamilClass (c : Char) : Bool := (0xB80 ≤ c.toNat && c.toNat ≤ 0xBFF) || pyWs c

/-- Character class `[A-Za-z\s\'-]` (Latin letters, whitespace, apostrophe,
hyphen). -/
def nameClass (c : Char) : Bool :=
  asciiAlpha c || pyWs c || c.toNat == 39 || c == '-'

/-- Backtracking for `([஀-௿\s]+)\n([A-Za-z\s\'-]+)`: the greedy
first group gives characters back one at a time; `tamilTryK k l` tries the
split sizes `k, k-1, ..., 1`, requiring the character after the group-1
prefix to be the literal `\n` and group 2 to be nonempty. -/
def tamilTryK : Nat → List Char → Option (List Char × List Char)
  | 0, _ => none
  | k + 1, l =>
    let g2 := (l.drop (k + 2)).takeWhile nameClass
    if (l.drop (k + 1)).head? == some '\n' && !g2.isEmpty then
      some (l.take (k + 1), g2)
    else tamilTryK k l

/-- Pattern `([஀-௿\s]+)\n([A-Za-z\s\'-]+)` tried at the current
position: group 1 greedily takes the maximal run of its class and backtracks
(the `\n` can only sit strictly inside that run, since `\n` belongs to the
class). -/
def tamilAt (l : List Char) : Option (List Char × List Char) :=
  let n := (l.takeWhile tamilClass).length
  match n with
  | 0 => none
  | m + 1 => tamilTryK m l

/-- Line 181: `re.search(r'([஀-௿\s]+)\n([A-Za-z\s\'-]+)', text)`. -/
def tamilSearch (l : List Char) : Option (List Char × List Char) := search tamilAt l

/-- The relationship markers `S/o|C/o|D/o|W/o` (equivalently `S/O|C/O|W/O|
D/O`), matched case-insensitively; returns the rest after the 3 characters. -/
def markerAt : List Char → Option (List Char)
  | a :: '/' :: c :: rest =>
    if (ci2 a 's' 'S' || ci2 a 'c' 'C' || ci2 a 'd' 'D' || ci2 a 'w' 'W')
        && ci2 c 'o' 'O' then some rest
    else none
  | _ => none

/-- Pattern `(S/o|C/o|D/o|W/o)[.:]?\s*([A-Za-z\s\'-]+)` (line 193,
IGNORECASE) tried at the current position.  Returns the group-2 capture and
the total number of characters the whole match consumes.  When the greedy
`\s*` leaves no group-2 character, the regex backtracks and group 2 becomes
the last whitespace character of the run (possible because `\s` is inside
the group-2 class). -/
def guardianAt (l : List Char) : Option (List Char × Nat) :=
  match markerAt l with
  | none => none
  | some r =>
    let pr : Nat × List Char :=
      match r with
      | c :: rest => if c == '.' || c == ':' then (1, rest) else (0, r)
      | [] => (0, r)
    let ws := pr.2.takeWhile pyWs
    let r3 := pr.2.drop ws.length
    let g := r3.takeWhile nameClass
    if !g.isEmpty then some (g, 3 + pr.1 + ws.length + g.length)
    else
      match ws.getLast? with
      | some w => some ([w], 3 + pr.1 + ws.length)
      | none => none

/-- Line 193: the guardian search. -/
def guardianSearch (l : List Char) : Option (List Char × Nat) := search guardianAt l

/-- Table for the case-insensitive literal `DOB`. -/
def tDOB : List (Char × Char) := [('d', 'D'), ('o', 'O'), ('b', 'B')]

/-- Table for the case-insensitive literal `Date of Birth`. -/
def tDateOfBirth : List (Char × Char) :=
  [('d', 'D'), ('a', 'A'), ('t', 'T'), ('e', 'E'), (' ', ' '),
   ('o', 'O'), ('f', 'F'), (' ', ' '),
   ('b', 'B'), ('i', 'I'), ('r', 'R'), ('t', 'T'), ('h', 'H')]

/-- The third DOB-label alternative.  In the source the raw pattern is
`D\\.O\\.B`, i.e. regex `D`, a literal backslash, any character except
newline, `O`, a literal backslash, any character except newline, `B`
(case-insensitive). -/
def dobLit3 : List Char → Option (List Char)
  | a :: '\\' :: x :: b :: '\\' :: y :: c :: rest =>
    if ci2 a 'd' 'D' && ci2 b 'o' 'O' && ci2 c 'b' 'B'
        && !(x == '\n') && !(y == '\n') then some rest
    else none
  | _ => none

/-- Pattern `\d{1,2}` followed by a dash-or-slash separator class: greedy,
two digits preferred over one.  Returns the consumed characters (digits and
separator) and the rest. -/
def num12sep : List Char → Option (List Char × List Char)
  | a :: b :: c :: rest =>
    if pyDigit a && pyDigit b && (c == '-' || c == '/') then some ([a, b, c], rest)
    else if pyDigit a && (b == '-' || b == '/') then some ([a, b], c :: rest)
    else none
  | [a, b] =>
    if pyDigit a && (b == '-' || b == '/') then some ([a, b], []) else none
  | _ => none

/-- The date pattern of line 198: one-or-two digits, a dash-or-slash
separator, one-or-two digits, a separator, four digits; returns the
capture. -/
def dateAt (l : List Char) : Option (List Char) :=
  match num12sep l with
  | none => none
  | some (m1, r1) =>
    match num12sep r1 with
    | none => none
    | some (m2, r2) =>
      match takeDigits 4 r2 with
      | none => none
      | some (y, _) => some (m1 ++ m2 ++ y)

/-- After a DOB label: `[:\s]*?` is lazy and its class is disjoint from
`\d`, so exactly the run of `:`/whitespace characters is skipped before the
date must match. -/
def dobAfterLabel (r : List Char) : Option (List Char) :=
  dateAt (r.dropWhile (fun c => c == ':' || pyWs c))

/-- The full DOB pattern of line 198 (IGNORECASE): one of the three label
alternatives, then `[:\s]*?`, then the date; tried at the current position,
alternatives in order with full backtracking into the date part. -/
def dobAt (l : List Char) : Option (List Char) :=
  match (litCI tDOB l).bind dobAfterLabel with
  | some d => some d
  | none =>
    match (litCI tDateOfBirth l).bind dobAfterLabel with
    | some d => some d
    | none => (dobLit3 l).bind dobAfterLabel

/-- Line 198: the date-of-birth search. -/
def dobSearch (l : List Char) : Option (List Char) := search dobAt l

/-- Table for the case-insensitive literal `Male`. -/
def tMale : List (Char × Char) := [('m', 'M'), ('a', 'A'), ('l', 'L'), ('e', 'E')]

/-- Table for the case-insensitive literal `Female`. -/
def tFemale : List (Char × Char) :=
  [('f', 'F'), ('e', 'E'), ('m', 'M'), ('a', 'A'), ('l', 'L'), ('e', 'E')]

/-- Table for the case-insensitive literal `Transgender`. -/
def tTransgender : List (Char × Char) :=
  [('t', 'T'), ('r', 'R'), ('a', 'A'), ('n', 'N'), ('s', 'S'),
   ('g', 'G'), ('e', 'E'), ('n', 'N'), ('d', 'D'), ('e', 'E'), ('r', 'R')]

/-- Try one gender vocabulary word at the current position, requiring a word
boundary after it; returns the capture (original casing). -/
def genderWordAt (tbl : List (Char × Char)) (l : List Char) : Option (List Char) :=
  match litCIcap tbl l with
  | some (g, r) => if bAfter r then some g else none
  | none => none

/-- Pattern `\b(Male|Female|Transgender|M|F|T)\b` (line 203, IGNORECASE)
tried at the current position, alternatives in source order (the leading
`\b` is handled by the caller). -/
def genderAt (l : List Char) : Option (List Char) :=
  match genderWordAt tMale l with
  | some g => some g
  | none =>
    match genderWordAt tFemale l with
    | some g => some g
    | none =>
      match genderWordAt tTransgender l with
      | some g => some g
      | none =>
        match genderWordAt [('m', 'M')] l with
        | some g => some g
        | none =>
          match genderWordAt [('f', 'F')] l with
          | some g => some g
          | none => genderWordAt [('t', 'T')] l

/-- Line 203: the gender search. -/
def genderSearch (l : List Char) : Option (List Char) := searchB genderAt true l

/-- Table for the case-insensitive literal `address`. -/
def tAddress : List (Char × Char) :=
  [('a', 'A'), ('d', 'D'), ('d', 'D'), ('r', 'R'), ('e', 'E'), ('s', 'S'), ('s', 'S')]

/-- Table for the case-insensitive literal `district`. -/
def tDistrict : List (Char × Char) :=
  [('d', 'D'), ('i', 'I'), ('s', 'S'), ('t', 'T'), ('r', 'R'), ('i', 'I'), ('c', 'C'), ('t', 'T')]

/-- Table for the case-insensitive literal `state`. -/
def tState : List (Char × Char) :=
  [('s', 'S'), ('t', 'T'), ('a', 'A'), ('t', 'T'), ('e', 'E')]

/-- Table for the case-insensitive literal `dist`. -/
def tDist : List (Char × Char) := [('d', 'D'), ('i', 'I'), ('s', 'S'), ('t', 'T')]

/-- Table for the case-insensitive literal `VID`. -/
def tVIDci : List (Char × Char) := [('v', 'V'), ('i', 'I'), ('d', 'D')]

/-- Table for the case-insensitive literal `Digitally`. -/
def tDigitally : List (Char × Char) :=
  [('d', 'D'), ('i', 'I'), ('g', 'G'), ('i', 'I'), ('t', 'T'),
   ('a', 'A'), ('l', 'L'), ('l', 'L'), ('y', 'Y')]

/-- The lookahead of the address pattern (line 208): the remaining text
starts with `\nDistrict`, `\nState`, `\n` plus six digits, `\nVID` or
`\nDigitally` (all case-insensitive under `(?i)`), or `$` holds there
(end of text, or a single final newline remains). -/
def addrStop (l : List Char) : Bool :=
  (match l with
   | [] => true
   | ['\n'] => true
   | '\n' :: r =>
     (litCI tDistrict r).isSome || (litCI tState r).isSome
     || (takeDigits 6 r).isSome || (litCI tVIDci r).isSome
     || (litCI tDigitally r).isSome
   | _ => false)

/-- The lazy capture `(.*?)` before the lookahead (DOTALL, so it may cross
newlines): consume characters until the first position where the lookahead
holds; the `$` alternative guarantees a stop at the end. -/
def addrLazy : List Char → List Char
  | [] => []
  | c :: rest => if addrStop (c :: rest) then [] else c :: addrLazy rest

/-- Pattern `(?i)address[:\s]*(.*?)(?=...)` (line 208) tried at the current
position.  The greedy `[:\s]*` never backtracks because the lazy capture
with its `$` alternative always succeeds. -/
def addrAt (l : List Char) : Option (List Char) :=
  match litCI tAddress l with
  | none => none
  | some r => some (addrLazy (r.dropWhile (fun c => c == ':' || pyWs c)))

/-- Line 208: the address search. -/
def addrSearch (l : List Char) : Option (List Char) := search addrAt l

/-- Generic `re.sub(pattern, '', s)`: scan left to right; `ml` reports, for a
word-boundary state and the remaining text, the length of a match starting
there (our patterns never match the empty string).  Matched segments are
dropped, scanning resumes after them (non-overlapping), and the boundary
state is recomputed from the last character passed or removed.  The fuel is
the initial length, which each step decreases by at least one character. -/
def gsubAux (ml : Bool → List Char → Option Nat) : Nat → Bool → List Char → List Char
  | 0, _, l => l
  | _, _, [] => []
  | fuel + 1, bnd, c :: rest =>
    match ml bnd (c :: rest) with
    | some (k + 1) =>
      let seg := (c :: rest).take (k + 1)
      let bnd2 := match seg.getLast? with
        | some x => !pyWord x
        | none => bnd
      gsubAux ml fuel bnd2 ((c :: rest).drop (k + 1))
    | _ => c :: gsubAux ml fuel (!pyWord c) rest

/-- Entry point for global substitution by deletion. -/
def gsub (ml : Bool → List Char → Option Nat) (l : List Char) : List Char :=
  gsubAux ml l.length true l

/-- Match length for line 210's sub pattern
`(S/o|C/o|D/o|W/o)[.:]?\s*[A-Za-z\s\'-]+` (IGNORECASE, no word boundary):
the consumed length computed by `guardianAt`. -/
def subGuardianLen (_ : Bool) (l : List Char) : Option Nat :=
  (guardianAt l).map (fun gr => gr.2)

/-- Match length for line 211's sub pattern `\b\d{4}\s\d{4}\s\d{4}\b`:
14 characters when the aadhaar-number pattern matches at a word boundary. -/
def subAadhaarLen (bnd : Bool) (l : List Char) : Option Nat :=
  if bnd then (aadhaarAt l).map (fun _ => 14) else none

/-- Index of the first comma reachable without crossing a newline. -/
def scanComma : List Char → Option Nat
  | [] => none
  | c :: rest =>
    if c == ',' then some 0
    else if c == '\n' then none
    else (scanComma rest).map (fun n => n + 1)

/-- Match length for line 212's sub pattern `PO:.*?,` (case sensitive, `.`
does not cross newlines, lazy up to the first comma, which is consumed). -/
def subPOLen (_ : Bool) (l : List Char) : Option Nat :=
  match l with
  | 'P' :: 'O' :: ':' :: rest => (scanComma rest).map (fun j => 3 + j + 1)
  | _ => none

/-- Length of the rest of the current line (for a trailing `.*`). -/
def lineLen (l : List Char) : Nat := (l.takeWhile (fun c => c != '\n')).length

/-- Match length for line 213's sub pattern `(?i)\b(dist|state)\b.*`:
a word-bounded `dist` or `state`, then the rest of the line. -/
def subDistStateLen (bnd : Bool) (l : List Char) : Option Nat :=
  if bnd then
    match litCI tDist l with
    | some r => if bAfter r then some (4 + lineLen r) else none
    | none =>
      match litCI tState l with
      | some r => if bAfter r then some (5 + lineLen r) else none
      | none => none
  else none

/-- Replace each maximal run of characters satisfying `p` by one space
(`re.sub(r'\n+', ' ', s)` and `re.sub(r'\s+', ' ', s)`). -/
def collapseRuns (p : Char → Bool) : Bool → List Char → List Char
  | _, [] => []
  | inRun, c :: rest =>
    if p c then
      if inRun then collapseRuns p true rest else ' ' :: collapseRuns p true rest
    else c :: collapseRuns p false rest

/-- Line 209-216: the address post-processing chain in source order. -/
def addrPost (g : List Char) : List Char :=
  let a0 := pyStrip g
  let a1 := gsub subGuardianLen a0
  let a2 := gsub subAadhaarLen a1
  let a3 := gsub subPOLen a2
  let a4 := gsub subDistStateLen a3
  let a5 := pyStrip (collapseRuns (fun c => c == '\n') false a4)
  pyStrip (collapseRuns pyWs false a5)

/-- Pattern `District[:\s]*(.*)` (line 219, IGNORECASE) tried at the current
position: the greedy `[:\s]*` (whose class includes newlines) takes its
maximal run, after which `(.*)` captures the rest of the line. -/
def districtAt (l : List Char) : Option (List Char) :=
  (litCI tDistrict l).map
    (fun r => (r.dropWhile (fun c => c == ':' || pyWs c)).takeWhile (fun c => c != '\n'))

/-- Line 219: the district search. -/
def districtSearch (l : List Char) : Option (List Char) := search districtAt l

/-- Pattern `State[:\s]*(.*)` (line 224, IGNORECASE). -/
def stateAt (l : List Char) : Option (List Char) :=
  (litCI tState l).map
    (fun r => (r.dropWhile (fun c => c == ':' || pyWs c)).takeWhile (fun c => c != '\n'))

/-- Line 224: the state search. -/
def stateSearch (l : List Char) : Option (List Char) := search stateAt l

/-- Pattern `\b(\d{n})\b` at the current position: exactly `n` digits, then a
word boundary (a longer digit run fails the boundary, as in the source). -/
def nDigitsAt (n : Nat) (l : List Char) : Option (List Char) :=
  match takeDigits n l with
  | some (g, r) => if bAfter r then some g else none
  | none => none

/-- Line 229: `re.search(r'\b(\d{6})\b', text)`. -/
def pincodeSearch (l : List Char) : Option (List Char) := searchB (nDigitsAt 6) true l

/-- Line 234: `re.search(r'\b(\d{10})\b', text)`. -/
def phoneSearch (l : List Char) : Option (List Char) := searchB (nDigitsAt 10) true l

/-- Python `text.split("\n")`: split at every newline, keeping empty pieces. -/
def splitNl : List Char → List (List Char)
  | [] => [[]]
  | c :: rest =>
    if c == '\n' then [] :: splitNl rest
    else
      match splitNl rest with
      | l :: ls => (c :: l) :: ls
      | [] => [[c]]

/-- Line 162: `[line.strip() for line in text.split("\n") if line.strip()]`. -/
def pyLines (l : List Char) : List (List Char) :=
  ((splitNl l).map pyStrip).filter (fun x => !x.isEmpty)

/-- Number of words of Python `s.split()` (maximal nonwhitespace runs). -/
def wordsCount : Bool → List Char → Nat
  | _, [] => 0
  | inw, c :: rest =>
    if pyWs c then wordsCount false rest
    else (if inw then 0 else 1) + wordsCount true rest

/-- Does `\s*(?:S/O|C/O|W/O|D/O)\s*` (IGNORECASE) match starting here?  The
leading `\s*` is greedy but its class is disjoint from the marker's first
characters, so the whole whitespace run is skipped before the marker. -/
def relHere (l : List Char) : Bool := (markerAt (l.dropWhile pyWs)).isSome

/-- `re.split(r'\s*(?:S/O|C/O|W/O|D/O)\s*', s, flags=IGNORECASE)[0]`
(lines 153 and 185): everything before the leftmost match; the whole string
when there is none. -/
def splitRel : List Char → List Char
  | [] => []
  | c :: rest => if relHere (c :: rest) then [] else c :: splitRel rest

/-- `re.sub(r'\s+[CWSD]\s*$', '', s)` (lines 154 and 186, case sensitive):
remove a trailing whitespace run, single `C`/`W`/`S`/`D` letter and optional
trailing whitespace; unchanged when the pattern is absent. -/
def subTrailRel (l : List Char) : List Char :=
  match (l.reverse.dropWhile pyWs) with
  | c :: r2 =>
    if c == 'C' || c == 'W' || c == 'S' || c == 'D' then
      match r2 with
      | d :: _ => if pyWs d then (r2.dropWhile pyWs).reverse else l
      | [] => l
    else l
  | [] => l

/-- Collapse internal whitespace to single spaces
(`re.sub(r'\s+', ' ', s)`). -/
def collapseWs (l : List Char) : List Char := collapseRuns pyWs false l

/-- The name-cleaning chain of `extract_name_from_text` (lines 153-156):
split before a relationship marker, drop a trailing relationship initial,
strip, collapse whitespace. -/
def cleanNamePart (l : List Char) : List Char :=
  collapseWs (pyStrip (subTrailRel (splitRel l)))

/-- The unwanted boilerplate phrases of lines 140-145. -/
def unwantedPhrases : List (List Char) :=
  ["Digitally signed by DS Unique".data,
   "Identification Authority of India".data,
   "Government of India".data,
   "Signature Not Verified".data]

/-- The line filter of lines 148-152: only letters/whitespace/apostrophes/
hyphens, more than one word, and no boilerplate phrase (lower-cased
substring test). -/
def nameLineOK (cl : List Char) : Bool :=
  (!cl.isEmpty) && cl.all nameClass
  && wordsCount false cl > 1
  && unwantedPhrases.all
      (fun ph => !containsSub (ph.map lowerChar) (cl.map lowerChar))

/-- `extract_name_from_text` (lines 138-157): first acceptable line, cleaned;
empty string when no line qualifies. -/
def extract_name_from_text : List (List Char) → List Char
  | [] => []
  | line :: rest =>
    let cl := pyStrip line
    if nameLineOK cl then cleanNamePart cl else extract_name_from_text rest

/-- The name-cleaning chain of the Tamil-name branch (lines 184-187):
strip, replace newlines by spaces, split before a relationship marker and
strip, drop a trailing relationship initial and strip, collapse
whitespace. -/
def cleanTamilName (g2 : List Char) : List Char :=
  let n1 := (pyStrip g2).map (fun c => if c == '\n' then ' ' else c)
  let n2 := pyStrip (splitRel n1)
  collapseWs (pyStrip (subTrailRel n2))

/-- `AadhaarData` (lines 14-26): the structured record, all fields
defaulting to the empty string. -/
structure AadhaarData where
  aadhaar_number : String := ""
  name_tamil : String := ""
  name : String := ""
  guardian_name : String := ""
  dob : String := ""
  gender : String := ""
  address : String := ""
  district : String := ""
  state : String := ""
  pincode : String := ""
  phone : String := ""
  vid : String := ""
deriving DecidableEq

/-- Lines 165-173: store the aadhaar-number capture; the source calls the
validator but stores the capture in either branch. -/
def withAadhaar (t : String) (d : AadhaarData) : AadhaarData :=
  match aadhaarSearch t.data with
  | some a =>
    if validate_aadhaar (String.mk (a.filter (fun c => c != ' ')))
    then { d with aadhaar_number := String.mk a }
    else { d with aadhaar_number := String.mk a }
  | none => d

/-- Lines 176-178: store the VID capture. -/
def withVid (t : String) (d : AadhaarData) : AadhaarData :=
  match vidSearch t.data with
  | some v => { d with vid := String.mk v }
  | none => d

/-- Lines 181-187: the Tamil-name branch. -/
def withTamilName (t : String) (d : AadhaarData) : AadhaarData :=
  match tamilSearch t.data with
  | some g =>
    { d with name_tamil := String.mk (pyStrip g.1),
             name := String.mk (cleanTamilName g.2) }
  | none => d

/-- Lines 189-190: `if not data.name: data.name =
extract_name_from_text(lines)`. -/
def withNameFallback (lines : List (List Char)) (d : AadhaarData) : AadhaarData :=
  if d.name = "" then { d with name := String.mk (extract_name_from_text lines) } else d

/-- Lines 193-195: store the stripped guardian capture. -/
def withGuardian (t : String) (d : AadhaarData) : AadhaarData :=
  match guardianSearch t.data with
  | some g => { d with guardian_name := String.mk (pyStrip g.1) }
  | none => d

/-- Lines 198-200: store the date with dashes replaced by slashes. -/
def withDob (t : String) (d : AadhaarData) : AadhaarData :=
  match dobSearch t.data with
  | some dt => { d with dob := String.mk (dt.map (fun c => if c == '-' then '/' else c)) }
  | none => d

/-- Lines 203-205: store the capitalized gender capture. -/
def withGender (t : String) (d : AadhaarData) : AadhaarData :=
  match genderSearch t.data with
  | some g => { d with gender := String.mk (pyCapitalize g) }
  | none => d

/-- Lines 208-216: store the post-processed address capture. -/
def withAddress (t : String) (d : AadhaarData) : AadhaarData :=
  match addrSearch t.data with
  | some a => { d with address := String.mk (addrPost a) }
  | none => d

/-- Lines 219-221: store the district capture, stripped, all commas
removed (`.replace(',', '')`). -/
def withDistrict (t : String) (d : AadhaarData) : AadhaarData :=
  match districtSearch t.data with
  | some c => { d with district := String.mk ((pyStrip c).filter (fun x => x != ',')) }
  | none => d

/-- Lines 224-226: store the state capture, stripped, trailing commas
removed (`.rstrip(',')`). -/
def withState (t : String) (d : AadhaarData) : AadhaarData :=
  match stateSearch t.data with
  | some c =>
    { d with state := String.mk (((pyStrip c).reverse.dropWhile (fun x => x == ',')).reverse) }
  | none => d

/-- Lines 229-231: store the pincode capture. -/
def withPincode (t : String) (d : AadhaarData) : AadhaarData :=
  match pincodeSearch t.data with
  | some p => { d with pincode := String.mk p }
  | none => d

/-- Lines 234-236: store the phone capture. -/
def withPhone (t : String) (d : AadhaarData) : AadhaarData :=
  match phoneSearch t.data with
  | some p => { d with phone := String.mk p }
  | none => d

/-- `parse_aadhaar_details` (lines 159-238): start from the all-empty
record and apply the per-field statements in source order. -/
def parse_aadhaar_details (text : String) : AadhaarData :=
  let lines := pyLines text.data
  withPhone text (withPincode text (withState text (withDistrict text
    (withAddress text (withGender text (withDob text (withGuardian text
      (withNameFallback lines (withTamilName text (withVid text
        (withAadhaar text {})))))))))))

/-! ### Standalone per-field extractors

One function of the text per field, used to state that the parser's fields
are extracted independently. -/

/-- The aadhaar-number field as a function of the text alone. -/
def fieldAadhaar (t : String) : String :=
  match aadhaarSearch t.data with
  | some a => String.mk a
  | none => ""

/-- The VID field as a function of the text alone. -/
def fieldVid (t : String) : String :=
  match vidSearch t.data with
  | some v => String.mk v
  | none => ""

/-- The Tamil-name field as a function of the text alone. -/
def fieldNameTamil (t : String) : String :=
  match tamilSearch t.data with
  | some g => String.mk (pyStrip g.1)
  | none => ""

/-- The name field as a function of the text alone: the cleaned Tamil-branch
candidate when present and nonempty, otherwise the line-scan fallback. -/
def fieldName (t : String) : String :=
  match tamilSearch t.data with
  | some g =>
    if String.mk (cleanTamilName g.2) = ""
    then String.mk (extract_name_from_text (pyLines t.data))
    else String.mk (cleanTamilName g.2)
  | none => String.mk (extract_name_from_text (pyLines t.data))

/-- The guardian-name field as a function of the text alone. -/
def fieldGuardian (t : String) : String :=
  match guardianSearch t.data with
  | some g => String.mk (pyStrip g.1)
  | none => ""

/-- The date-of-birth field as a function of the text alone. -/
def fieldDob (t : String) : String :=
  match dobSearch t.data with
  | some dt => String.mk (dt.map (fun c => if c == '-' then '/' else c))
  | none => ""

/-- The gender field as a function of the text alone. -/
def fieldGender (t : String) : String :=
  match genderSearch t.data with
  | some g => String.mk (pyCapitalize g)
  | none => ""

/-- The address field as a function of the text alone. -/
def fieldAddress (t : String) : String :=
  match addrSearch t.data with
  | some a => String.mk (addrPost a)
  | none => ""

/-- The district field as a function of the text alone. -/
def fieldDistrict (t : String) : String :=
  match districtSearch t.data with
  | some c => String.mk ((pyStrip c).filter (fun x => x != ','))
  | none => ""

/-- The state field as a function of the text alone. -/
def fieldState (t : String) : String :=
  match stateSearch t.data with
  | some c => String.mk (((pyStrip c).reverse.dropWhile (fun x => x == ',')).reverse)
  | none => ""

/-- The pincode field as a function of the text alone. -/
def fieldPincode (t : String) : String :=
  match pincodeSearch t.data with
  | some p => String.mk p
  | none => ""

/-- The phone field as a function of the text alone. -/
def fieldPhone (t : String) : String :=
  match phoneSearch t.data with
  | some p => String.mk p
  | none => ""

/-- Decidable equality for acquisition results. -/
instance : DecidableEq (Except String String) := fun a b =>
  match a, b with
  | Except.ok x, Except.ok y =>
    if h : x = y then isTrue (by rw [h]) else isFalse (fun he => by cases he; exact h rfl)
  | Except.error x, Except.error y =>
    if h : x = y then isTrue (by rw [h]) else isFalse (fun he => by cases he; exact h rfl)
  | Except.ok _, Except.error _ => isFalse (fun he => by cases he)
  | Except.error _, Except.ok _ => isFalse (fun he => by cases he)

/-! ### Concrete inputs used by scenario theorems and counterexamples -/

/-- The scenario text of the spec (section 8) and claim C1. -/
def c1Text : String :=
  "1234 5678 9012\nJohn Smith\nS/O Robert Smith\nDOB: 01-02-1990\nMale\nAddress: 12 Main St\nDistrict: Chennai\nState: Tamil Nadu\n600001\n9876543210"

/-- Twelve Tamil decimal digits (U+0BE7): each satisfies Python
`str.isdigit` but none is an ASCII digit. -/
def tamilTwelve : String := "௧௧௧௧௧௧௧௧௧௧௧௧"

/-- An unencrypted two-page document whose second page has an empty native
text layer but a nonempty would-be OCR output. -/
def docOcr : PDFDoc :=
  ⟨false, fun _ => true, [⟨Except.ok "A\n", ""⟩, ⟨Except.ok "", "OCRTEXT"⟩]⟩

/-- Nonempty bytes parsing to `docOcr`. -/
def inOcr : PDFBytes := ⟨true, Except.ok docOcr⟩

/-- An unencrypted one-page document. -/
def docPlain : PDFDoc := ⟨false, fun _ => true, [⟨Except.ok "hi", ""⟩]⟩

/-- Nonempty bytes parsing to `docPlain`. -/
def inPlain : PDFBytes := ⟨true, Except.ok docPlain⟩

/-- An unencrypted document with two nonempty pages `"A"` and `"B"`. -/
def docAB : PDFDoc :=
  ⟨false, fun _ => true, [⟨Except.ok "A", ""⟩, ⟨Except.ok "B", ""⟩]⟩

/-- Nonempty bytes parsing to `docAB`. -/
def inAB : PDFBytes := ⟨true, Except.ok docAB⟩

end AadhaarOCR

namespace AadhaarOCR

/-! ## Theorems -/

/-- Auxiliary: appending strings appends their character lists. -/
theorem data_append (a b : String) : (a ++ b).data = a.data ++ b.data := rfl

/-- Claim C7: for every pair of strings `a` and `b`,
`validate_aadhaar (a ++ " " ++ b) = validate_aadhaar (a ++ b)` — inserting a
space at any split point never changes the validator's result, because the
validator first removes every space character. -/
theorem c7_space_insensitive (a b : String) :
    validate_aadhaar (a ++ " " ++ b) = validate_aadhaar (a ++ b) := by
  unfold validate_aadhaar
  rw [data_append, data_append, data_append]
  simp [List.filter_append]

/-- Claim C6, counterexample: on twelve Tamil decimal digits the source
validator returns `true`, while the claim's ASCII-digit characterization is
`false`; so "returns true iff ... only ASCII digits" fails on this input. -/
theorem c6_counterexample :
    validate_aadhaar tamilTwelve = true ∧ specValidAsciiId tamilTwelve = false := by
  constructor
  · decide
  · decide

/-- Claim C6 as amended: `validate_aadhaar s` is true iff `s` with all
space characters removed is nonempty, consists only of Unicode decimal
digits in Python's `str.isdigit` sense (modelled by `pyDigit`) — not only
ASCII digits — and is exactly 12 characters long. -/
theorem c6_amended (s : String) :
    validate_aadhaar s = true ↔
      (s.data.filter (fun c => c != ' ') ≠ []
        ∧ (∀ c ∈ s.data.filter (fun c => c != ' '), pyDigit c = true)
        ∧ (s.data.filter (fun c => c != ' ')).length = 12) := by
  unfold validate_aadhaar
  simp only [Bool.and_eq_true, Bool.not_eq_true', List.all_eq_true, beq_iff_eq,
    List.isEmpty_eq_false_iff_exists_mem, and_assoc]
  constructor
  · rintro ⟨⟨x, hx⟩, h2, h3⟩
    exact ⟨fun hnil => by simp [hnil] at hx, h2, h3⟩
  · rintro ⟨h1, h2, h3⟩
    rcases List.exists_mem_of_ne_nil _ h1 with ⟨x, hx⟩
    exact ⟨⟨x, hx⟩, h2, h3⟩

/-- Claim C9: the re-authentication check that the source places after the
`raise` in the unencrypted-document-with-password branch is dead code —
`extract_text_from_pdf` (which sequences that check after the error, exactly
as the source does) agrees with `extract_text_from_pdf_noDead` (the same
function with the check removed) on every input, so removing it does not
change the function's behaviour. -/
theorem c9_dead_code (input : PDFBytes) (password : Option String) :
    extract_text_from_pdf input password = extract_text_from_pdf_noDead input password := rfl

/-- Claim C3, counterexample: for a concrete unencrypted document and the
nonempty password `"x"`, acquisition does fail and returns no text, but the
error is the generic `Failed to process PDF: ...` wrapper (the outer handler
re-raises only messages starting with `Password required`, `Invalid
password` or `No text could be`, which the "password not required" message
does not), not the distinct `PasswordNotNeeded` error the claim asserts. -/
theorem c3_counterexample :
    extract_text_from_pdf inPlain (some "x")
        = Except.error ("Failed to process PDF: " ++ pnnMsg)
      ∧ extract_text_from_pdf inPlain (some "x") ≠ Except.error pnnMsg := by
  constructor
  · rfl
  · decide

/-- Claim C3 as amended: for every unencrypted PDF and every nonempty
password, acquisition fails — regardless of the password's value and with no
text returned — but with the generic wrapper message
`Failed to process PDF: PDF is not encrypted, password not required`
rather than the bare "password not required" error. -/
theorem c3_amended (input : PDFBytes) (doc : PDFDoc) (p : String)
    (h0 : input.nonempty = true) (h1 : input.parsed = Except.ok doc)
    (h2 : doc.needs_pass = false) (h3 : p ≠ "") :
    extract_text_from_pdf input (some p)
      = Except.error ("Failed to process PDF: " ++ pnnMsg) := by
  have hp : pyTruthy (some p) = true := by
    unfold pyTruthy
    simpa using h3
  have hb : extractBody doc (some p) = Except.error pnnMsg := by
    unfold extractBody passCheck
    rw [h2, hp]
    rfl
  unfold extract_text_from_pdf
  rw [h0, h1]
  simp only [hb]
  rfl

/-- Claim C3, witness for the amended theorem at a concrete input. -/
theorem c3_witness :
    extract_text_from_pdf inPlain (some "x")
      = Except.error ("Failed to process PDF: " ++ pnnMsg) :=
  c3_amended inPlain docPlain "x" rfl rfl rfl (by decide)

/-- Auxiliary: the pages loop never reads a page's `ocrText`. -/
theorem pagesLoop_setOcr (f : String → String) :
    ∀ (ps : List PDFPage) (i : Nat) (acc : String),
      pagesLoop i acc (ps.map (fun pg => { pg with ocrText := f pg.ocrText }))
        = pagesLoop i acc ps := by
  intro ps
  induction ps with
  | nil => intro i acc; rfl
  | cons pg rest ih =>
    intro i acc
    obtain ⟨gt, ocr⟩ := pg
    cases gt with
    | ok t => exact ih (i + 1) (acc ++ t)
    | error m => rfl

/-- Claim C2, counterexample: a document whose second page has an empty
native text layer and a nonempty would-be OCR output.  Acquisition succeeds,
but the returned text is just the first page's native text and does not
contain the OCR output — no rasterization/preprocessing/OCR happens in
`extract_text_from_pdf`, contradicting the claim that such a page's OCR
output is included. -/
theorem c2_counterexample :
    extract_text_from_pdf inOcr none = Except.ok "A\n"
      ∧ containsSub "OCRTEXT".data "A\n".data = false := by
  constructor
  · rfl
  · decide

/-- Claim C2 as amended: `extract_text_from_pdf` performs no OCR fallback at
all — its result is invariant under arbitrary changes to every page's
would-be OCR output, for every input and password.  Pages contribute only
their native text layer; a page whose native layer is empty contributes
nothing, and a page whose extraction raises fails the whole acquisition. -/
theorem c2_no_ocr_fallback (f : String → String) (input : PDFBytes)
    (password : Option String) :
    extract_text_from_pdf (setOcr f input) password
      = extract_text_from_pdf input password := by
  have hbody : ∀ doc : PDFDoc,
      extractBody
          { doc with pages := doc.pages.map (fun pg => { pg with ocrText := f pg.ocrText }) }
          password
        = extractBody doc password := by
    intro doc
    unfold extractBody passCheck authTry notEncBranch
    rw [pagesLoop_setOcr]
  obtain ⟨ne, parsed⟩ := input
  cases parsed with
  | error m => rfl
  | ok doc =>
    simp only [extract_text_from_pdf, setOcr]
    rw [hbody]

/-- Auxiliary: when every page's text extraction succeeds, the pages loop
returns the accumulator followed by the page texts, concatenated with no
separator (`text += page_text`). -/
theorem pagesLoop_ok :
    ∀ (ps : List PDFPage) (ts : List String) (i : Nat) (acc : String),
      ps.map PDFPage.getText = ts.map Except.ok →
      pagesLoop i acc ps = Except.ok (ts.foldl (fun a b => a ++ b) acc) := by
  intro ps
  induction ps with
  | nil =>
    intro ts i acc h
    cases ts with
    | nil => rfl
    | cons t ts' => simp at h
  | cons pg rest ih =>
    intro ts i acc h
    cases ts with
    | nil => simp at h
    | cons t ts' =>
      simp only [List.map_cons, List.cons.injEq] at h
      obtain ⟨gt, ocr⟩ := pg
      obtain ⟨h1, h2⟩ := h
      simp only at h1
      subst h1
      exact ih ts' (i + 1) (acc ++ t) h2

/-- Claim C4, counterexample: for a document with two pages whose native
texts are `"A"` and `"B"`, acquisition returns `"AB"`, not the
newline-joined `"A\nB"` the claim asserts. -/
theorem c4_counterexample :
    extract_text_from_pdf inAB none = Except.ok "AB"
      ∧ ("AB" : String) ≠ "A" ++ "\n" ++ "B" := by
  constructor
  · rfl
  · decide

/-- Claim C4 as amended: the text returned by `extract_text_from_pdf` is the
concatenation of the per-page texts in page order with no separator
inserted between consecutive pages (the source runs `text += page_text`);
any newline between pages can only come from the page texts themselves. -/
theorem c4_concat_no_separator (input : PDFBytes) (doc : PDFDoc) (ts : List String)
    (h0 : input.nonempty = true) (h1 : input.parsed = Except.ok doc)
    (h2 : doc.needs_pass = false)
    (h3 : doc.pages.map PDFPage.getText = ts.map Except.ok)
    (h4 : (pyStrip (ts.foldl (fun a b => a ++ b) "").data).isEmpty = false) :
    extract_text_from_pdf input none = Except.ok (ts.foldl (fun a b => a ++ b) "") := by
  have hb : extractBody doc none = Except.ok (ts.foldl (fun a b => a ++ b) "") := by
    unfold extractBody passCheck
    rw [h2, pagesLoop_ok doc.pages ts 0 "" h3]
    simp only [pyTruthy, h4]
    rfl
  unfold extract_text_from_pdf
  rw [h0, h1]
  simp only [hb]
  rfl

/-- Claim C4, witness for the amended theorem at a concrete input. -/
theorem c4_witness : extract_text_from_pdf inAB none = Except.ok "AB" := by
  have h := c4_concat_no_separator inAB docAB ["A", "B"] rfl rfl rfl rfl (by decide)
  simpa using h

/-! ### Field independence of the parser

Each per-field statement block of `parse_aadhaar_details` writes exactly one
field (the name block writes two) and reads no other; the lemmas below
restate each block as a single-field record update, and `parse_fields_eq`
chains them. -/

/-- The aadhaar block only writes `aadhaar_number`. -/
theorem withAadhaar_eq (t : String) (d : AadhaarData) (h : d.aadhaar_number = "") :
    withAadhaar t d = { d with aadhaar_number := fieldAadhaar t } := by
  unfold withAadhaar fieldAadhaar
  cases hs : aadhaarSearch t.data with
  | some a =>
    show (if _ then _ else _) = _
    split
    · rfl
    · rfl
  | none =>
    show d = { d with aadhaar_number := "" }
    rw [← h]

/-- The VID block only writes `vid`. -/
theorem withVid_eq (t : String) (d : AadhaarData) (h : d.vid = "") :
    withVid t d = { d with vid := fieldVid t } := by
  unfold withVid fieldVid
  cases hs : vidSearch t.data with
  | some v => rfl
  | none =>
    show d = { d with vid := "" }
    rw [← h]

/-- The name block (Tamil branch then line-scan fallback) writes exactly
`name_tamil` and `name`. -/
theorem nameBlock_eq (t : String) (d : AadhaarData)
    (h1 : d.name = "") (h2 : d.name_tamil = "") :
    withNameFallback (pyLines t.data) (withTamilName t d)
      = { d with name_tamil := fieldNameTamil t, name := fieldName t } := by
  obtain ⟨a1, a2, a3, a4, a5, a6, a7, a8, a9, a10, a11, a12⟩ := d
  simp only at h1 h2
  subst h1
  subst h2
  unfold withTamilName withNameFallback fieldNameTamil fieldName
  cases hs : tamilSearch t.data with
  | some g =>
    simp only
    by_cases hc : String.mk (cleanTamilName g.2) = ""
    · rw [if_pos hc, if_pos hc]
    · rw [if_neg hc, if_neg hc]
  | none =>
    simp only
    rw [if_pos trivial]

/-- The guardian block only writes `guardian_name`. -/
theorem withGuardian_eq (t : String) (d : AadhaarData) (h : d.guardian_name = "") :
    withGuardian t d = { d with guardian_name := fieldGuardian t } := by
  unfold withGuardian fieldGuardian
  cases hs : guardianSearch t.data with
  | some g => rfl
  | none =>
    show d = { d with guardian_name := "" }
    rw [← h]

/-- The DOB block only writes `dob`. -/
theorem withDob_eq (t : String) (d : AadhaarData) (h : d.dob = "") :
    withDob t d = { d with dob := fieldDob t } := by
  unfold withDob fieldDob
  cases hs : dobSearch t.data with
  | some dt => rfl
  | none =>
    show d = { d with dob := "" }
    rw [← h]

/-- The gender block only writes `gender`. -/
theorem withGender_eq (t : String) (d : AadhaarData) (h : d.gender = "") :
    withGender t d = { d with gender := fieldGender t } := by
  unfold withGender fieldGender
  cases hs : genderSearch t.data with
  | some g => rfl
  | none =>
    show d = { d with gender := "" }
    rw [← h]

/-- The address block only writes `address`. -/
theorem withAddress_eq (t : String) (d : AadhaarData) (h : d.address = "") :
    withAddress t d = { d with address := fieldAddress t } := by
  unfold withAddress fieldAddress
  cases hs : addrSearch t.data with
  | some a => rfl
  | none =>
    show d = { d with address := "" }
    rw [← h]

/-- The district block only writes `district`. -/
theorem withDistrict_eq (t : String) (d : AadhaarData) (h : d.district = "") :
    withDistrict t d = { d with district := fieldDistrict t } := by
  unfold withDistrict fieldDistrict
  cases hs : districtSearch t.data with
  | some c => rfl
  | none =>
    show d = { d with district := "" }
    rw [← h]

/-- The state block only writes `state`. -/
theorem withState_eq (t : String) (d : AadhaarData) (h : d.state = "") :
    withState t d = { d with state := fieldState t } := by
  unfold withState fieldState
  cases hs : stateSearch t.data with
  | some c => rfl
  | none =>
    show d = { d with state := "" }
    rw [← h]

/-- The pincode block only writes `pincode`. -/
theorem withPincode_eq (t : String) (d : AadhaarData) (h : d.pincode = "") :
    withPincode t d = { d with pincode := fieldPincode t } := by
  unfold withPincode fieldPincode
  cases hs : pincodeSearch t.data with
  | some p => rfl
  | none =>
    show d = { d with pincode := "" }
    rw [← h]

/-- The phone block only writes `phone`. -/
theorem withPhone_eq (t : String) (d : AadhaarData) (h : d.phone = "") :
    withPhone t d = { d with phone := fieldPhone t } := by
  unfold withPhone fieldPhone
  cases hs : phoneSearch t.data with
  | some p => rfl
  | none =>
    show d = { d with phone := "" }
    rw [← h]

/-- The parser is the record of the twelve independent per-field
extractors. -/
theorem parse_fields_eq (t : String) :
    parse_aadhaar_details t =
      { aadhaar_number := fieldAadhaar t, name_tamil := fieldNameTamil t,
        name := fieldName t, guardian_name := fieldGuardian t, dob := fieldDob t,
        gender := fieldGender t, address := fieldAddress t, district := fieldDistrict t,
        state := fieldState t, pincode := fieldPincode t, phone := fieldPhone t,
        vid := fieldVid t } := by
  show withPhone t (withPincode t (withState t (withDistrict t (withAddress t
    (withGender t (withDob t (withGuardian t (withNameFallback (pyLines t.data)
      (withTamilName t (withVid t (withAadhaar t {}))))))))))) = _
  rw [withAadhaar_eq t _ rfl]
  rw [withVid_eq t _ rfl]
  rw [nameBlock_eq t _ rfl rfl]
  rw [withGuardian_eq t _ rfl]
  rw [withDob_eq t _ rfl]
  rw [withGender_eq t _ rfl]
  rw [withAddress_eq t _ rfl]
  rw [withDistrict_eq t _ rfl]
  rw [withState_eq t _ rfl]
  rw [withPincode_eq t _ rfl]
  rw [withPhone_eq t _ rfl]

/-- Claim C5: `parse_aadhaar_details` is a total function — for every string
input (the empty string, whitespace, arbitrary text) it returns an
`AadhaarData` record, and that record is exactly the tuple of twelve
independent per-field extractors, each of which defaults to the empty
string on no match; so absence of one field never blocks extraction of the
others.  (Totality is intrinsic: the embedding is a total Lean function,
mirroring the source where every field extraction is a total
`re.search`-and-default.) -/
theorem c5_parser_total_independent (t : String) :
    parse_aadhaar_details t =
      { aadhaar_number := fieldAadhaar t, name_tamil := fieldNameTamil t,
        name := fieldName t, guardian_name := fieldGuardian t, dob := fieldDob t,
        gender := fieldGender t, address := fieldAddress t, district := fieldDistrict t,
        state := fieldState t, pincode := fieldPincode t, phone := fieldPhone t,
        vid := fieldVid t } :=
  parse_fields_eq t

/-- Claim C1, counterexample: on the scenario text the parser's
guardian-name field is `"Robert Smith\nDOB"` — the capture class
`[A-Za-z\s\'-]+` includes the newline and swallows the following `DOB`
label — not the `"Robert Smith"` the claim asserts. -/
theorem c1_counterexample :
    (parse_aadhaar_details c1Text).guardian_name = "Robert Smith\nDOB"
      ∧ (parse_aadhaar_details c1Text).guardian_name ≠ "Robert Smith" := by
  constructor
  · decide
  · decide

/-- Claim C1 as amended: on the scenario text the parser returns exactly the
claimed record except that `guardian_name` is `"Robert Smith\nDOB"` (the
other claimed fields — aadhaar number, name, dob, gender, district, state,
pincode, phone — are as claimed, the aadhaar number validates, and the
remaining fields are `name_tamil = ""`, `vid = ""`,
`address = "12 Main St"`). -/
theorem c1_scenario :
    parse_aadhaar_details c1Text =
      { aadhaar_number := "1234 5678 9012", name_tamil := "", name := "John Smith",
        guardian_name := "Robert Smith\nDOB", dob := "01/02/1990", gender := "Male",
        address := "12 Main St", district := "Chennai", state := "Tamil Nadu",
        pincode := "600001", phone := "9876543210", vid := "" }
      ∧ validate_aadhaar "1234 5678 9012" = true := by
  constructor
  · decide
  · decide

/-- Claim C8, counterexample: on `"District: A,B"` the captured remainder is
`"A,B"`, whose only comma is interior, yet the district field is `"AB"` —
the source's `.replace(',', '')` removes every comma, not only trailing
ones, so interior commas are not preserved. -/
theorem c8_counterexample :
    districtSearch ("District: A,B" : String).data = some ("A,B".data)
      ∧ (parse_aadhaar_details "District: A,B").district = "AB"
      ∧ ("AB" : String) ≠ "A,B" := by
  refine ⟨by decide, by decide, by decide⟩

/-- Claim C8 as amended: whenever the district-label pattern matches, the
district field is the captured remainder, stripped of surrounding
whitespace, with all commas removed — interior commas included. -/
theorem c8_district_commas (t : String) (cap : List Char)
    (h : districtSearch t.data = some cap) :
    (parse_aadhaar_details t).district
      = String.mk ((pyStrip cap).filter (fun x => x != ',')) := by
  rw [parse_fields_eq]
  show fieldDistrict t = _
  unfold fieldDistrict
  rw [h]

/-- Claim C8, witness for the amended theorem at a concrete input. -/
theorem c8_witness : (parse_aadhaar_details "District: A,B").district = "AB" := by
  have h := c8_district_commas "District: A,B" ("A,B".data) (by decide)
  exact h.trans (by decide)

/-! ### The gender invariant (claim C10) -/

/-- A capture character agrees with a case-pair of a literal table. -/
def chPair (c : Char) (p : Char × Char) : Prop := c = p.1 ∨ c = p.2

/-- A successful `litCIcap` capture agrees pairwise with its table. -/
theorem litCIcap_forall2 :
    ∀ (tbl : List (Char × Char)) (l g r : List Char),
      litCIcap tbl l = some (g, r) → List.Forall₂ chPair g tbl := by
  intro tbl
  induction tbl with
  | nil =>
    intro l g r h
    unfold litCIcap at h
    injection h with h'
    cases h'
    exact List.Forall₂.nil
  | cons p ps ih =>
    intro l g r h
    cases l with
    | nil => cases h
    | cons c rest =>
      unfold litCIcap at h
      by_cases hc : ci2 c p.1 p.2 = true
      · rw [if_pos hc] at h
        cases hi : litCIcap ps rest with
        | none => rw [hi] at h; cases h
        | some gr =>
          rw [hi] at h
          injection h with h'
          cases h'
          have hcp : chPair c p := by
            have := hc
            unfold ci2 at this
            rcases Bool.or_eq_true_iff.mp this with h' | h'
            · exact Or.inl (by simpa using h')
            · exact Or.inr (by simpa using h')
          exact List.Forall₂.cons hcp (ih rest gr.1 gr.2 (by rw [hi]))
      · rw [if_neg hc] at h
        cases h

/-- Lower-casing a capture that agrees with a table whose pairs are a
lowercase letter and its uppercase form yields the lowercase letters. -/
theorem forall2_map_lower :
    ∀ (g : List Char) (tbl : List (Char × Char)),
      List.Forall₂ chPair g tbl →
      (∀ p ∈ tbl, lowerChar p.1 = p.1 ∧ lowerChar p.2 = p.1) →
      g.map lowerChar = tbl.map Prod.fst := by
  intro g tbl h
  induction h with
  | nil => intro; rfl
  | @cons c p g' tl hc htail ih =>
    intro htbl
    have h1 : lowerChar c = p.1 := by
      rcases hc with h' | h'
      · rw [h']
        exact (htbl p (List.mem_cons_self p tl)).1
      · rw [h']
        exact (htbl p (List.mem_cons_self p tl)).2
    have h2 := ih (fun q hq => htbl q (List.mem_cons_of_mem p hq))
    simp only [List.map_cons, h1, h2]

/-- Capitalizing a capture that agrees with a case-pair table. -/
theorem pyCapitalize_of_forall2 (g : List Char) (hd : Char × Char)
    (tl : List (Char × Char)) (h : List.Forall₂ chPair g (hd :: tl))
    (htl : ∀ p ∈ tl, lowerChar p.1 = p.1 ∧ lowerChar p.2 = p.1)
    (hup : upperChar hd.1 = upperChar hd.2) :
    pyCapitalize g = upperChar hd.1 :: tl.map Prod.fst := by
  cases h with
  | @cons c _ g' _ hc htail =>
    have h1 : upperChar c = upperChar hd.1 := by
      rcases hc with h' | h'
      · rw [h']
      · rw [h', hup]
    show upperChar c :: g'.map lowerChar = _
    rw [h1, forall2_map_lower g' tl htail htl]

/-- A successful `genderWordAt` capture agrees pairwise with its table. -/
theorem genderWordAt_forall2 (tbl : List (Char × Char)) (l g : List Char)
    (h : genderWordAt tbl l = some g) : List.Forall₂ chPair g tbl := by
  unfold genderWordAt at h
  cases hc : litCIcap tbl l with
  | none => rw [hc] at h; cases h
  | some gr =>
    obtain ⟨g0, r0⟩ := gr
    rw [hc] at h
    have h' : (if bAfter r0 = true then some g0 else none) = some g := h
    split at h'
    · injection h' with h''
      subst h''
      exact litCIcap_forall2 tbl l g0 r0 (by rw [hc])
    · cases h'

/-- A successful `genderAt` capture capitalizes to one of the six canonical
gender strings. -/
theorem genderAt_vocab :
    ∀ (l g : List Char), genderAt l = some g →
      String.mk (pyCapitalize g)
        ∈ (["Male", "Female", "Transgender", "M", "F", "T"] : List String) := by
  intro l g h
  unfold genderAt at h
  cases h1 : genderWordAt tMale l with
  | some g1 =>
    rw [h1] at h
    injection h with h'
    subst h'
    have hcap := pyCapitalize_of_forall2 g1 ('m', 'M')
      [('a', 'A'), ('l', 'L'), ('e', 'E')]
      (genderWordAt_forall2 tMale l g1 h1) (by decide) (by decide)
    rw [show String.mk (pyCapitalize g1) = "Male" by rw [hcap]; decide]
    decide
  | none =>
    rw [h1] at h
    cases h2 : genderWordAt tFemale l with
    | some g2 =>
      rw [h2] at h
      injection h with h'
      subst h'
      have hcap := pyCapitalize_of_forall2 g2 ('f', 'F')
        [('e', 'E'), ('m', 'M'), ('a', 'A'), ('l', 'L'), ('e', 'E')]
        (genderWordAt_forall2 tFemale l g2 h2) (by decide) (by decide)
      rw [show String.mk (pyCapitalize g2) = "Female" by rw [hcap]; decide]
      decide
    | none =>
      rw [h2] at h
      cases h3 : genderWordAt tTransgender l with
      | some g3 =>
        rw [h3] at h
        injection h with h'
        subst h'
        have hcap := pyCapitalize_of_forall2 g3 ('t', 'T')
          [('r', 'R'), ('a', 'A'), ('n', 'N'), ('s', 'S'), ('g', 'G'),
           ('e', 'E'), ('n', 'N'), ('d', 'D'), ('e', 'E'), ('r', 'R')]
          (genderWordAt_forall2 tTransgender l g3 h3) (by decide) (by decide)
        rw [show String.mk (pyCapitalize g3) = "Transgender" by rw [hcap]; decide]
        decide
      | none =>
        rw [h3] at h
        cases h4 : genderWordAt [('m', 'M')] l with
        | some g4 =>
          rw [h4] at h
          injection h with h'
          subst h'
          have hcap := pyCapitalize_of_forall2 g4 ('m', 'M') []
            (genderWordAt_forall2 [('m', 'M')] l g4 h4) (by decide) (by decide)
          rw [show String.mk (pyCapitalize g4) = "M" by rw [hcap]; decide]
          decide
        | none =>
          rw [h4] at h
          cases h5 : genderWordAt [('f', 'F')] l with
          | some g5 =>
            rw [h5] at h
            injection h with h'
            subst h'
            have hcap := pyCapitalize_of_forall2 g5 ('f', 'F') []
              (genderWordAt_forall2 [('f', 'F')] l g5 h5) (by decide) (by decide)
            rw [show String.mk (pyCapitalize g5) = "F" by rw [hcap]; decide]
            decide
          | none =>
            rw [h5] at h
            have hcap := pyCapitalize_of_forall2 g ('t', 'T') []
              (genderWordAt_forall2 [('t', 'T')] l g h) (by decide) (by decide)
            rw [show String.mk (pyCapitalize g) = "T" by rw [hcap]; decide]
            decide

/-- A boundary-carrying search only returns values the position matcher
produced. -/
theorem searchB_prop {α : Type} (att : List Char → Option α) (P : α → Prop)
    (hatt : ∀ l a, att l = some a → P a) :
    ∀ (bnd : Bool) (l : List Char) (a : α), searchB att bnd l = some a → P a := by
  intro bnd l
  induction l generalizing bnd with
  | nil => intro a h; cases h
  | cons c rest ih =>
    intro a h
    unfold searchB at h
    cases hb : (if bnd then att (c :: rest) else none) with
    | some g =>
      rw [hb] at h
      injection h with h'
      subst h'
      cases bnd with
      | true => exact hatt _ _ (by simpa using hb)
      | false => simp at hb
    | none =>
      rw [hb] at h
      exact ih (!pyWord c) a h

/-- A string of the gender vocabulary with exactly one character is one of
the three single-letter abbreviations. -/
theorem vocab_single_letter (s : String)
    (h : s ∈ (["Male", "Female", "Transgender", "M", "F", "T"] : List String))
    (hl : s.length = 1) : s ∈ (["M", "F", "T"] : List String) := by
  simp only [List.mem_cons, List.not_mem_nil, or_false] at h
  rcases h with h | h | h | h | h | h
  · rw [h] at hl; exact absurd hl (by decide)
  · rw [h] at hl; exact absurd hl (by decide)
  · rw [h] at hl; exact absurd hl (by decide)
  · rw [h]; decide
  · rw [h]; decide
  · rw [h]; decide

/-- Python `str.capitalize` preserves the length of the matched text. -/
theorem pyCapitalize_length (g : List Char) :
    (String.mk (pyCapitalize g)).length = g.length := by
  cases g with
  | nil => rfl
  | cons c rest => simp [pyCapitalize, String.length]

/-- Claim C10: for every input text, the gender field of the record returned
by `parse_aadhaar_details` is either empty or exactly one of `Male`,
`Female`, `Transgender`, `M`, `F`, `T`; and whenever the gender pattern
captures text `g`, the stored field is Python-capitalize of that capture and
has the same length as it — so a single-letter abbreviation found in the
text (a length-1 capture) is kept as a single letter, one of `M`, `F`, `T`,
and never expanded to the full word. -/
theorem c10_gender_vocabulary (t : String) :
    (parse_aadhaar_details t).gender
      ∈ (["", "Male", "Female", "Transgender", "M", "F", "T"] : List String)
    ∧ ∀ g : List Char, genderSearch t.data = some g →
        (parse_aadhaar_details t).gender = String.mk (pyCapitalize g)
        ∧ (parse_aadhaar_details t).gender.length = g.length
        ∧ (g.length = 1 →
            (parse_aadhaar_details t).gender ∈ (["M", "F", "T"] : List String)) := by
  have hfield : (parse_aadhaar_details t).gender = fieldGender t := by
    rw [parse_fields_eq]
  constructor
  · rw [hfield]
    unfold fieldGender
    cases hg : genderSearch t.data with
    | none => simp
    | some g =>
      simp only
      have hmem := searchB_prop genderAt
        (fun g => String.mk (pyCapitalize g)
          ∈ (["Male", "Female", "Transgender", "M", "F", "T"] : List String))
        genderAt_vocab true t.data g hg
      exact List.mem_cons_of_mem _ hmem
  · intro g hg
    have h1 : (parse_aadhaar_details t).gender = String.mk (pyCapitalize g) := by
      rw [hfield]
      unfold fieldGender
      rw [hg]
    have hmem : String.mk (pyCapitalize g)
        ∈ (["Male", "Female", "Transgender", "M", "F", "T"] : List String) :=
      searchB_prop genderAt
        (fun g => String.mk (pyCapitalize g)
          ∈ (["Male", "Female", "Transgender", "M", "F", "T"] : List String))
        genderAt_vocab true t.data g hg
    refine ⟨h1, by rw [h1, pyCapitalize_length], ?_⟩
    intro hone
    rw [h1]
    exact vocab_single_letter _ hmem ((pyCapitalize_length g).trans hone)

/-- Claim C10, witness: on a text containing the standalone single letter
`t`, the stored gender field is the single letter `T`, not the expanded
word. -/
theorem c10_witness :
    (parse_aadhaar_details "x t y").gender = "T"
      ∧ (parse_aadhaar_details "x t y").gender ∈ (["M", "F", "T"] : List String) := by
  have h := (c10_gender_vocabulary "x t y").2 ['t'] (by decide)
  refine ⟨?_, h.2.2 (by decide)⟩
  rw [h.1]
  decide

end AadhaarOCR
